import Mathlib

/-!
Verification of the canary-rollout controller and its simulation twin
(repository MajorityProject).

Shallow embedding conventions:
* Python floats are modelled as exact rationals (`ℚ`); the numeric literals
  of the source (0.1, 0.04, …) are carried over as exact rationals.
* `numpy` arrays of metrics are modelled as `List ℚ`.
* The pseudo-random draws of the simulator (`np.random.*`) are resolved into
  explicit function arguments: a step of `CanaryEnv` receives the simulated
  `MetricSnapshot` as an input, exactly the set of values the `_simulate_*`
  helpers would have produced from the RNG.
* Uncaught Python exceptions are modelled with `Option` (`none` = the call
  raises and the control flow aborts).
-/

namespace Canary

/-- Model of `np.clip(x, lo, hi)` on scalars. -/
def clip (x lo hi : ℚ) : ℚ :=
  max lo (min hi x)

/-- A `collections.deque` with `maxlen = W`: appending to a full buffer
evicts the oldest entries from the left.  The list is ordered oldest-first. -/
def pushWindow (W : ℕ) (buf : List (List ℚ)) (x : List ℚ) : List (List ℚ) :=
  let b := buf ++ [x]
  if W < b.length then b.drop (b.length - W) else b

/-- Flattening of the observation buffer:
`np.concatenate(list(self._obs_buffer))` in `CanaryEnv._get_context_window`
and in `CanaryController.get_observation`. -/
def context_window (buf : List (List ℚ)) : List ℚ :=
  buf.flatten

/-- One timestep's raw signals, as produced either by the `_simulate_*`
helpers of `CanaryEnv` (their random draws resolved) or by polling the real
services (`get_canary_metrics` / `get_cluster_metrics`). -/
structure MetricSnapshot where
  error_rate_v2 : ℚ
  latency_p95_v2 : ℚ
  cpu_usage_v2 : ℚ
  memory_usage_v2 : ℚ
  total_error_rate : ℚ
  end_to_end_latency : ℚ
  request_rate : ℚ
  deriving DecidableEq

namespace CanaryEnv

/-- Metric indices declared on `CanaryEnv` (src/env/canary_env.py lines 32-40). -/
def IDX_ERROR_RATE_V2 : ℕ := 0

def IDX_LATENCY_P95_V2 : ℕ := 1

def IDX_CPU_USAGE_V2 : ℕ := 2

def IDX_MEMORY_USAGE_V2 : ℕ := 3

def IDX_TOTAL_ERROR_RATE : ℕ := 4

def IDX_END_TO_END_LATENCY : ℕ := 5

def IDX_REQUEST_RATE : ℕ := 6

def IDX_TRAFFIC_V2 : ℕ := 7

def NUM_METRICS : ℕ := 8

/-- Scenario tag of the synthetic cluster model.  It only parametrises the
random metric generators, which are abstracted as the `MetricSnapshot`
input of `step`, so no further definition depends on it. -/
inductive Scenario where
  | healthy
  | buggy
  | degrading
  | flaky
  deriving DecidableEq

/-- Mutable state of `CanaryEnv` (fields set in `__init__` and `reset`).
`base_latency`, `slo_latency`, `slo_e2e_latency` and `num_services` are set
once in `__init__`; the `base_cluster_*` fields are re-randomised by
`reset`. -/
structure EnvState where
  window_size : ℕ
  max_steps : ℕ
  step_count : ℕ
  traffic_v2 : ℚ
  base_latency : ℚ
  slo_latency : ℚ
  slo_e2e_latency : ℚ
  num_services : ℕ
  cascade_factor : ℚ
  base_cluster_error : ℚ
  base_cluster_latency : ℚ
  base_request_rate : ℚ
  scenario : Scenario
  obs_buffer : List (List ℚ)
  deriving DecidableEq

/-- `CanaryEnv.__init__(force_scenario, window_size)`: the defaults of
src/env/canary_env.py lines 42-85 (max_steps 100, base_latency 100ms,
SLO 200ms, e2e SLO 500ms, 5 services, cluster baselines 0.005/250/0.5). -/
def init (window_size : ℕ) : EnvState where
  window_size := window_size
  max_steps := 100
  step_count := 0
  traffic_v2 := 0
  base_latency := 100
  slo_latency := 200
  slo_e2e_latency := 500
  num_services := 5
  cascade_factor := 0
  base_cluster_error := 1/200
  base_cluster_latency := 250
  base_request_rate := 1/2
  scenario := Scenario.healthy
  obs_buffer := []

/-- `CanaryEnv._build_single_obs` (lines 197-229): the 8-dim normalised
vector for one timestep; every component is clamped to [0,1] after scaling
(`max_local_latency = 500`, `max_e2e_latency = 1000`).  `traffic_v2` is read
from `self.traffic_v2` in the source and is passed here as the last
argument. -/
def build_single_obs (error_rate_v2 latency_p95_v2 cpu_usage_v2 memory_usage_v2
    total_error_rate end_to_end_latency request_rate traffic_v2 : ℚ) : List ℚ :=
  [ clip error_rate_v2 0 1,
    clip (latency_p95_v2 / 500) 0 1,
    clip cpu_usage_v2 0 1,
    clip memory_usage_v2 0 1,
    clip total_error_rate 0 1,
    clip (end_to_end_latency / 1000) 0 1,
    clip request_rate 0 1,
    clip traffic_v2 0 1 ]

/-- The vector `_build_single_obs()` produces when called with no arguments
(the `zero_obs` of `reset`, line 110): error 0, latency defaulting to
`base_latency`, cpu 0.05, memory 0.10, the cluster fields defaulting to the
`base_cluster_*` parameters, and the current (zero) traffic. -/
def default_obs (s : EnvState) : List ℚ :=
  build_single_obs 0 s.base_latency (5/100) (10/100)
    s.base_cluster_error s.base_cluster_latency s.base_request_rate s.traffic_v2

/-- `CanaryEnv.reset` (lines 88-116).  The random draws are explicit
arguments: the scenario choice and the three `np.random.uniform` samples
for `base_cluster_error`, `base_cluster_latency`, `base_request_rate`.
The buffer is cleared and filled with `window_size` copies of `zero_obs`. -/
def reset (s : EnvState) (scenario : Scenario) (bce bcl brr : ℚ) : EnvState :=
  let s1 := { s with
    step_count := 0
    traffic_v2 := 0
    cascade_factor := 0
    scenario := scenario
    base_cluster_error := bce
    base_cluster_latency := bcl
    base_request_rate := brr }
  { s1 with obs_buffer := List.replicate s1.window_size (default_obs s1) }

/-- The action application of `CanaryEnv.step` (lines 123-126):
`1` adds 0.1 to the traffic fraction clamped above at 1, `2` subtracts 0.1
clamped below at 0, anything else leaves it unchanged. -/
def apply_action (action : ℤ) (traffic : ℚ) : ℚ :=
  if action = 1 then min 1 (traffic + 1/10)
  else if action = 2 then max 0 (traffic - 1/10)
  else traffic

/-- `CanaryEnv._update_cascade` (lines 299-314): exponential smoothing of
the error pressure `traffic * error * (num_services - 1)` with `alpha = 0.3`,
clipped to [0,1]. -/
def update_cascade (num_services : ℕ) (traffic cascade error_rate_v2 : ℚ) : ℚ :=
  let error_pressure := traffic * error_rate_v2 * ((num_services : ℚ) - 1)
  let alpha : ℚ := 3/10
  clip (alpha * error_pressure + (1 - alpha) * cascade) 0 1

/-- Critical local-error termination check of `CanaryEnv.step`
(line 157: `error_rate_v2 > 0.04`). -/
def critical_local (m : MetricSnapshot) : Prop :=
  m.error_rate_v2 > 4/100

instance (m : MetricSnapshot) : Decidable (critical_local m) := by
  unfold critical_local
  infer_instance

/-- Critical cluster-error termination check of `CanaryEnv.step`
(line 162: `total_error_rate > 0.06`). -/
def critical_cluster (m : MetricSnapshot) : Prop :=
  m.total_error_rate > 6/100

instance (m : MetricSnapshot) : Decidable (critical_cluster m) := by
  unfold critical_cluster
  infer_instance

/-- Success condition of `CanaryEnv.step` (lines 170-173): full traffic,
local error below 2%, local p95 below the SLO, cluster error below 3%. -/
def success_check (m : MetricSnapshot) (traffic slo_latency : ℚ) : Prop :=
  traffic ≥ 1 ∧ m.error_rate_v2 < 2/100 ∧
    m.latency_p95_v2 < slo_latency ∧ m.total_error_rate < 3/100

instance (m : MetricSnapshot) (traffic slo_latency : ℚ) :
    Decidable (success_check m traffic slo_latency) := by
  unfold success_check
  infer_instance

/-- Result of one `CanaryEnv.step` call: the next state and the gymnasium
`terminated` / `truncated` flags (the reward is not modelled; no claim is
about the scoring function). -/
structure EnvStepResult where
  state : EnvState
  terminated : Bool
  truncated : Bool
  deriving DecidableEq

/-- `CanaryEnv.step` (lines 119-191) with the simulated metric values
resolved into the `MetricSnapshot` argument: increment the step counter,
apply the action to the traffic fraction, update the cascade factor from
the new traffic and the local error, push the normalised observation, then
set `terminated` on a critical local error (> 4%), a critical cluster error
(> 6%) or the success condition, and `truncated` when `max_steps` is
reached. -/
def step (s : EnvState) (action : ℤ) (m : MetricSnapshot) : EnvStepResult :=
  let step_count := s.step_count + 1
  let traffic := apply_action action s.traffic_v2
  let cascade := update_cascade s.num_services traffic s.cascade_factor m.error_rate_v2
  let single := build_single_obs m.error_rate_v2 m.latency_p95_v2 m.cpu_usage_v2
    m.memory_usage_v2 m.total_error_rate m.end_to_end_latency m.request_rate traffic
  let buffer := pushWindow s.window_size s.obs_buffer single
  let terminated :=
    decide (critical_local m) || decide (critical_cluster m)
      || decide (success_check m traffic s.slo_latency)
  let truncated := decide (step_count ≥ s.max_steps)
  { state := { s with
      step_count := step_count
      traffic_v2 := traffic
      cascade_factor := cascade
      obs_buffer := buffer }
    terminated := terminated
    truncated := truncated }

/-- The simulation driver loop body of rule-based.py lines 135-137 and
evaluate.py lines 66-68: the policy is invoked on the flattened context
window of the current state, and the resulting action is fed to
`CanaryEnv.step` together with the next simulated snapshot. -/
def loop_step (policy : List ℚ → ℤ) (s : EnvState) (m : MetricSnapshot) : EnvStepResult :=
  step s (policy (context_window s.obs_buffer)) m

/-- The traffic fraction reached from `traffic` after a whole sequence of
actions, each applied by the clamped update of `CanaryEnv.step`. -/
def run_traffic (traffic : ℚ) (actions : List ℤ) : ℚ :=
  actions.foldl (fun u a => apply_action a u) traffic

/-- Shape invariant of the observation buffer: it holds `window_size`
vectors of 8 entries each (established by `reset`, preserved by `step`). -/
def obs_invariant (s : EnvState) : Prop :=
  s.obs_buffer.length = s.window_size ∧ ∀ o ∈ s.obs_buffer, o.length = 8

instance (s : EnvState) : Decidable (obs_invariant s) := by
  unfold obs_invariant
  exact instDecidableAnd

end CanaryEnv

/-- Terminal classification of one iteration of the online control loop
(`CanaryController.run`): the loop breaks with a rollback, breaks with a
success, or continues into the next pacing interval.  Reaching `max_steps`
without a break is the timed-out exit of the surrounding `while`. -/
inductive Outcome where
  | rolledBack
  | succeeded
  | running
  deriving DecidableEq

namespace Controller

/-- Mutable state of `CanaryController` (src/agent/src/controller.py
lines 48-68).  `sink_weight` records the last canary weight (integer
percentage) pushed to the external traffic sink by
`_update_ingress_weights`; it starts at 0 before any push (the external
ingress is out of scope). -/
structure CtrlState where
  traffic_v2 : ℚ
  step_count : ℕ
  max_steps : ℕ
  slo_latency : ℚ
  slo_e2e_latency : ℚ
  window_size : ℕ
  obs_buffer : List (List ℚ)
  sink_weight : ℤ
  deriving DecidableEq

/-- `CanaryController.__init__` with the environment-variable defaults
(MAX_STEPS 100, SLO_LATENCY 200, SLO_E2E_LATENCY 500, WINDOW_SIZE 10). -/
def init (window_size max_steps : ℕ) (slo_latency slo_e2e_latency : ℚ) : CtrlState where
  traffic_v2 := 0
  step_count := 0
  max_steps := max_steps
  slo_latency := slo_latency
  slo_e2e_latency := slo_e2e_latency
  window_size := window_size
  obs_buffer := []
  sink_weight := 0

/-- `CanaryController._build_single_obs` (lines 140-160): identical
normalisation to the training environment, with `MAX_LOCAL_LATENCY = 500`
and `MAX_E2E_LATENCY = 1000`; `traffic_v2` is read from `self` and passed
as the last argument. -/
def build_single_obs (error_rate_v2 latency_p95_v2 cpu_usage_v2 memory_usage_v2
    total_error_rate end_to_end_latency request_rate traffic_v2 : ℚ) : List ℚ :=
  [ clip error_rate_v2 0 1,
    clip (latency_p95_v2 / 500) 0 1,
    clip cpu_usage_v2 0 1,
    clip memory_usage_v2 0 1,
    clip total_error_rate 0 1,
    clip (end_to_end_latency / 1000) 0 1,
    clip request_rate 0 1,
    clip traffic_v2 0 1 ]

/-- The vector `_build_single_obs()` produces when called with no arguments
(the `zero_obs` of `run`, line 272): the defaults of lines 142-148
(error 0, latency 100ms, cpu 0.05, memory 0.10, cluster error 0.005,
e2e latency 250ms, request rate 0.5) and the current traffic fraction. -/
def default_obs (s : CtrlState) : List ℚ :=
  build_single_obs 0 100 (5/100) (10/100) (1/200) 250 (1/2) s.traffic_v2

/-- The buffer initialisation of `CanaryController.run` (lines 271-274):
the window is cleared and filled with `window_size` copies of `zero_obs`. -/
def start (s : CtrlState) : CtrlState :=
  { s with obs_buffer := List.replicate s.window_size (default_obs s) }

/-- The canary weight pushed by `_update_ingress_weights` (line 226):
`int(self.traffic_v2 * 100)`.  Python `int()` truncates toward zero, which
coincides with the floor on the non-negative fractions the controller
holds. -/
def ingress_weight (traffic : ℚ) : ℤ :=
  ⌊traffic * 100⌋

/-- `CanaryController._update_ingress_weights` (lines 224-247): push the
current traffic fraction, as an integer percentage, to the traffic sink. -/
def update_ingress (s : CtrlState) : CtrlState :=
  { s with sink_weight := ingress_weight s.traffic_v2 }

/-- The traffic update of `CanaryController.apply_action` (lines 216-219):
the same clamped ±0.1 step as the training environment. -/
def apply_action_traffic (action : ℤ) (traffic : ℚ) : ℚ :=
  if action = 1 then min 1 (traffic + 1/10)
  else if action = 2 then max 0 (traffic - 1/10)
  else traffic

/-- `CanaryController.apply_action` (lines 206-222).  Before branching on
the action the method logs `action_names[action]` against the 3-element
list `["HOLD", "UP", "DOWN"]`; a Python list index outside [-3, 2] raises
`IndexError`, and `run` does not catch it, so the call aborts the rollout:
modelled as `none`.  Otherwise the traffic fraction is updated and pushed
to the ingress. -/
def apply_action (action : ℤ) (s : CtrlState) : Option CtrlState :=
  if 2 < action ∨ action < -3 then none
  else some (update_ingress
    { s with traffic_v2 := apply_action_traffic action s.traffic_v2 })

/-- Critical local-error check of `CanaryController.run`
(line 285: `error_rate_v2 > 0.04`). -/
def critical_local (m : MetricSnapshot) : Prop :=
  m.error_rate_v2 > 4/100

instance (m : MetricSnapshot) : Decidable (critical_local m) := by
  unfold critical_local
  infer_instance

/-- Critical cluster-error check of `CanaryController.run`
(line 292: `total_error_rate > 0.06`). -/
def critical_cluster (m : MetricSnapshot) : Prop :=
  m.total_error_rate > 6/100

instance (m : MetricSnapshot) : Decidable (critical_cluster m) := by
  unfold critical_cluster
  infer_instance

/-- Success check of `CanaryController.run` (lines 299-302), evaluated on
the post-action traffic (`new_traffic`): full traffic, local error below
2%, local p95 below the SLO, cluster error below 3%. -/
def success_check (m : MetricSnapshot) (traffic slo_latency : ℚ) : Prop :=
  traffic ≥ 1 ∧ m.error_rate_v2 < 2/100 ∧
    m.latency_p95_v2 < slo_latency ∧ m.total_error_rate < 3/100

instance (m : MetricSnapshot) (traffic slo_latency : ℚ) :
    Decidable (success_check m traffic slo_latency) := by
  unfold success_check
  infer_instance

/-- The observation phase of one `run` iteration (lines 277-280 up to
`get_observation`): increment the step counter, build the normalised
vector from the polled snapshot with the *current* (pre-action) traffic
fraction, and push it into the window buffer. -/
def observe (m : MetricSnapshot) (s : CtrlState) : CtrlState :=
  { s with
    step_count := s.step_count + 1
    obs_buffer := pushWindow s.window_size s.obs_buffer
      (build_single_obs m.error_rate_v2 m.latency_p95_v2 m.cpu_usage_v2
        m.memory_usage_v2 m.total_error_rate m.end_to_end_latency
        m.request_rate s.traffic_v2) }

/-- The remainder of one `run` iteration after the policy's action is
known (lines 282-309): apply the action (which may abort, `none`), then
check the termination conditions in source order — critical local error
and critical cluster error each force the traffic to 0, push it to the
sink and break as a rollback; the success condition breaks as a success;
otherwise the loop continues. -/
def step_with_action (m : MetricSnapshot) (action : ℤ) (s : CtrlState) :
    Option (CtrlState × Outcome) :=
  match apply_action action s with
  | none => none
  | some s1 =>
    if critical_local m then
      some (update_ingress { s1 with traffic_v2 := 0 }, Outcome.rolledBack)
    else if critical_cluster m then
      some (update_ingress { s1 with traffic_v2 := 0 }, Outcome.rolledBack)
    else if success_check m s1.traffic_v2 s1.slo_latency then
      some (s1, Outcome.succeeded)
    else
      some (s1, Outcome.running)

/-- One full iteration of the `while` loop of `CanaryController.run`
(lines 276-311): observe, invoke the decision policy on the flattened
context window, then apply the action and evaluate termination. -/
def run_step (policy : List ℚ → ℤ) (m : MetricSnapshot) (s : CtrlState) :
    Option (CtrlState × Outcome) :=
  let s1 := observe m s
  step_with_action m (policy (context_window s1.obs_buffer)) s1

end Controller

namespace RuleBased

/-- Module constant `WINDOW_SIZE` of src/rule-based.py (line 12). -/
def WINDOW_SIZE : ℕ := 10

/-- The default threshold dictionary of `rule_based_policy`
(src/rule-based.py lines 54-63); a structure with those defaults models
the `config=None` path. -/
structure RuleConfig where
  error_threshold : ℚ := 1/50
  cluster_error_threshold : ℚ := 1/40
  latency_slo_norm : ℚ := 2/5
  e2e_latency_slo_norm : ℚ := 1/2
  cpu_threshold : ℚ := 4/5
  memory_threshold : ℚ := 17/20
  safe_error_threshold : ℚ := 1/100
  degrading_slope_threshold : ℚ := 1/500

/-- `_latest_metrics` (lines 15-22): the slice
`obs[(window_size-1)*num_metrics : (window_size-1)*num_metrics + num_metrics]`. -/
def latest_metrics (obs : List ℚ) (window_size num_metrics : ℕ) : List ℚ :=
  (obs.drop ((window_size - 1) * num_metrics)).take num_metrics

/-- The slope of the ordinary-least-squares line through the points
`(0, y_0), …, (n-1, y_(n-1))`: the closed form of
`np.polyfit(np.arange(n), values, 1)[0]` over exact rationals. -/
def ols_slope (values : List ℚ) : ℚ :=
  let n : ℚ := values.length
  let xbar := (n - 1) / 2
  let ybar := values.sum / n
  let num := (values.enum.map (fun p => ((p.1 : ℚ) - xbar) * (p.2 - ybar))).sum
  let den := (values.enum.map (fun p => ((p.1 : ℚ) - xbar) ^ 2)).sum
  num / den

/-- `_trend` (lines 25-39): collect the metric channel over the timesteps
`max(0, window_size - look_back) … window_size - 1` (truncated ℕ
subtraction models Python's `max(0, ·)`), return 0 when fewer than two
values, otherwise the least-squares slope. -/
def trend (obs : List ℚ) (metric_idx window_size num_metrics look_back : ℕ) : ℚ :=
  let values := (List.range' (window_size - look_back)
      (window_size - (window_size - look_back))).map
    (fun t => obs.getD (t * num_metrics + metric_idx) 0)
  if values.length < 2 then 0 else ols_slope values

/-- `rule_based_policy` (lines 42-116): threshold-and-trend rules over the
latest window entry, first matching rule wins; returns the action as the
integer 0 = HOLD, 1 = UP, 2 = DOWN. -/
def rule_based_policy (config : RuleConfig) (obs : List ℚ) : ℤ :=
  let m := latest_metrics obs WINDOW_SIZE CanaryEnv.NUM_METRICS
  let error_rate_v2 := m.getD CanaryEnv.IDX_ERROR_RATE_V2 0
  let latency_p95_v2 := m.getD CanaryEnv.IDX_LATENCY_P95_V2 0
  let cpu_usage_v2 := m.getD CanaryEnv.IDX_CPU_USAGE_V2 0
  let memory_usage_v2 := m.getD CanaryEnv.IDX_MEMORY_USAGE_V2 0
  let total_error_rate := m.getD CanaryEnv.IDX_TOTAL_ERROR_RATE 0
  let e2e_latency := m.getD CanaryEnv.IDX_END_TO_END_LATENCY 0
  let error_trend := trend obs CanaryEnv.IDX_ERROR_RATE_V2 WINDOW_SIZE CanaryEnv.NUM_METRICS 5
  let cluster_error_trend := trend obs CanaryEnv.IDX_TOTAL_ERROR_RATE WINDOW_SIZE CanaryEnv.NUM_METRICS 5
  if error_rate_v2 > config.error_threshold then 2
  else if total_error_rate > config.cluster_error_threshold then 2
  else if error_trend > config.degrading_slope_threshold then 0
  else if cluster_error_trend > config.degrading_slope_threshold then 0
  else if latency_p95_v2 > config.latency_slo_norm then 0
  else if e2e_latency > config.e2e_latency_slo_norm then 0
  else if cpu_usage_v2 > config.cpu_threshold then 0
  else if memory_usage_v2 > config.memory_threshold then 0
  else if error_rate_v2 < config.safe_error_threshold ∧
      total_error_rate < config.safe_error_threshold then 1
  else 0

/-- First-matching-rule selector: scan a priority list of guarded actions
and return the first whose guard holds, or the default. -/
def first_match (rules : List (Bool × ℤ)) (dflt : ℤ) : ℤ :=
  match rules with
  | [] => dflt
  | (b, a) :: rest => if b then a else first_match rest dflt

/-- Modelled from the spec's wording of the rule-based policy (§4.3): the
priority list "(1) local error above a critical threshold → DECREASE;
(2) cluster error above a critical threshold → DECREASE; (3) rising error
trend (slope above a small positive threshold) for either channel → HOLD;
(4) local or end-to-end latency above its SLO (normalized) → HOLD;
(5) CPU or memory above a saturation threshold → HOLD; (6) both error
channels below a safe threshold → INCREASE; (7) default → HOLD", to be
compared with `rule_based_policy` as translated from the source. -/
def rule_based_policy_spec (config : RuleConfig) (obs : List ℚ) : ℤ :=
  let m := latest_metrics obs WINDOW_SIZE CanaryEnv.NUM_METRICS
  let error_rate_v2 := m.getD CanaryEnv.IDX_ERROR_RATE_V2 0
  let latency_p95_v2 := m.getD CanaryEnv.IDX_LATENCY_P95_V2 0
  let cpu_usage_v2 := m.getD CanaryEnv.IDX_CPU_USAGE_V2 0
  let memory_usage_v2 := m.getD CanaryEnv.IDX_MEMORY_USAGE_V2 0
  let total_error_rate := m.getD CanaryEnv.IDX_TOTAL_ERROR_RATE 0
  let e2e_latency := m.getD CanaryEnv.IDX_END_TO_END_LATENCY 0
  let error_trend := trend obs CanaryEnv.IDX_ERROR_RATE_V2 WINDOW_SIZE CanaryEnv.NUM_METRICS 5
  let cluster_error_trend := trend obs CanaryEnv.IDX_TOTAL_ERROR_RATE WINDOW_SIZE CanaryEnv.NUM_METRICS 5
  first_match
    [ (decide (error_rate_v2 > config.error_threshold), 2),
      (decide (total_error_rate > config.cluster_error_threshold), 2),
      (decide (error_trend > config.degrading_slope_threshold ∨
        cluster_error_trend > config.degrading_slope_threshold), 0),
      (decide (latency_p95_v2 > config.latency_slo_norm ∨
        e2e_latency > config.e2e_latency_slo_norm), 0),
      (decide (cpu_usage_v2 > config.cpu_threshold ∨
        memory_usage_v2 > config.memory_threshold), 0),
      (decide (error_rate_v2 < config.safe_error_threshold ∧
        total_error_rate < config.safe_error_threshold), 1) ]
    0

end RuleBased

/-- The module-level metric counters shared by the demo services
(src/app/src/canary/app.py lines 22-25 and the stable twin):
request count, error count, accumulated latency, and the sliding list of
recent latencies (canary only uses the last one for the p95). -/
structure ServiceCounters where
  request_count : ℕ
  error_count : ℕ
  total_latency : ℚ
  latency_values : List ℚ
  deriving DecidableEq

/-- Python `round(x, ndigits)`: round half to even at the given number of
decimal digits. -/
def pyRound (ndigits : ℕ) (x : ℚ) : ℚ :=
  let y := x * 10 ^ ndigits
  let f := ⌊y⌋
  let r :=
    if y - f < 1/2 then f
    else if y - f > 1/2 then f + 1
    else if f % 2 = 0 then f else f + 1
  (r : ℚ) / 10 ^ ndigits

namespace CanaryApp

/-- The health fields of the canary service's `_compute_metrics` response
(the `cpu_usage`/`memory_usage` fields come from `psutil` process
introspection, outside this embedding, and no claim is about them). -/
structure Metrics where
  error_rate : ℚ
  avg_latency_ms : ℚ
  latency_p95_ms : ℚ
  deriving DecidableEq

/-- `_compute_metrics` of src/app/src/canary/app.py (lines 264-294):
conditional-expression guards return 0 for the average latency and the
error rate when `request_count` is 0, and 0.0 for the p95 when no
latencies are recorded; otherwise the p95 is the entry of the ascending
sort at index `min(int(len * 0.95), len - 1)`. -/
def compute_metrics (c : ServiceCounters) : Metrics :=
  let avg_latency : ℚ :=
    if 0 < c.request_count then c.total_latency / c.request_count else 0
  let current_error_rate : ℚ :=
    if 0 < c.request_count then (c.error_count : ℚ) / c.request_count else 0
  let latency_p95 : ℚ :=
    if c.latency_values = [] then 0
    else
      let sorted_lat := c.latency_values.insertionSort (· ≤ ·)
      let p95_idx := (⌊(sorted_lat.length : ℚ) * (95/100)⌋).toNat
      sorted_lat.getD (min p95_idx (sorted_lat.length - 1)) 0
  { error_rate := pyRound 6 current_error_rate
    avg_latency_ms := pyRound 2 avg_latency
    latency_p95_ms := pyRound 2 latency_p95 }

end CanaryApp

namespace StableApp

/-- The health fields of the stable service's `_compute_metrics` response
(the stable twin reports no p95). -/
structure Metrics where
  error_rate : ℚ
  avg_latency_ms : ℚ
  deriving DecidableEq

/-- `_compute_metrics` of src/app/src/stable/app.py (lines 219-228): the
same zero-guarded average latency and error rate as the canary twin. -/
def compute_metrics (c : ServiceCounters) : Metrics :=
  let avg_latency : ℚ :=
    if 0 < c.request_count then c.total_latency / c.request_count else 0
  let current_error_rate : ℚ :=
    if 0 < c.request_count then (c.error_count : ℚ) / c.request_count else 0
  { error_rate := pyRound 6 current_error_rate
    avg_latency_ms := pyRound 2 avg_latency }

end StableApp

/-! ### Concrete fixtures used by the closed theorems below -/

/-- A valid deterministic decision policy used as a concrete probe on a
window of size 1: DECREASE (2) when the newest local-error entry of the
flattened window (index `(1-1)*8 + 0 = 0`) exceeds 3%, otherwise
INCREASE (1). -/
def probe_policy (obs : List ℚ) : ℤ :=
  if obs.getD 0 0 > 3/100 then 2 else 1

/-- The environment state right after `reset` with `window_size = 1` and
the cluster baselines sampled at 0.005 / 250ms / 0.5. -/
def envReset1 : CanaryEnv.EnvState :=
  CanaryEnv.reset (CanaryEnv.init 1) CanaryEnv.Scenario.healthy (1/200) 250 (1/2)

/-- The controller state right after the buffer initialisation of `run`
with `window_size = 1` and the default thresholds. -/
def ctrlStart1 : Controller.CtrlState :=
  Controller.start (Controller.init 1 100 200 500)

/-- The environment state right after `reset` with `window_size = 10`, the
scenario forced healthy, and the cluster baselines sampled at their
midpoints 0.005 / 250ms / 0.5 (within the `np.random.uniform` ranges of
`reset`). -/
def envReset10 : CanaryEnv.EnvState :=
  CanaryEnv.reset (CanaryEnv.init 10) CanaryEnv.Scenario.healthy (1/200) 250 (1/2)

/-- `envReset10` with the traffic fraction already driven to 1 (the value
reached after ten consecutive UP actions). -/
def envFull : CanaryEnv.EnvState :=
  { envReset10 with traffic_v2 := 1 }

/-- The controller state right after the buffer initialisation of `run`,
with the default configuration (window 10, 100 steps, 200ms / 500ms SLOs). -/
def ctrlStart10 : Controller.CtrlState :=
  Controller.start (Controller.init 10 100 200 500)

/-- `ctrlStart10` with the traffic fraction already driven to 1. -/
def ctrlFull : Controller.CtrlState :=
  { ctrlStart10 with traffic_v2 := 1 }

/-- A snapshot with local error 3.5%: above the probe policy's 3% test,
below every critical threshold. -/
def probeSnap : MetricSnapshot :=
  ⟨7/200, 100, 1/10, 1/10, 1/200, 250, 1/2⟩

/-- A snapshot meeting the source's success conditions at full traffic
(local error 1%, p95 150ms) while its cluster error is 2.5% — between the
2% the spec names and the 3% the code checks. -/
def nearSuccessSnap : MetricSnapshot :=
  ⟨1/100, 150, 1/10, 1/10, 1/40, 250, 1/2⟩

/-- A snapshot with a critically high local error rate (10%). -/
def highErrSnap : MetricSnapshot :=
  ⟨1/10, 100, 1/10, 1/10, 1/200, 250, 1/2⟩

/-! ### Helper lemmas -/

theorem clip_unit_nonneg (x : ℚ) : 0 ≤ clip x 0 1 :=
  le_max_left 0 _

theorem clip_unit_le_one (x : ℚ) : clip x 0 1 ≤ 1 :=
  max_le (by norm_num) (min_le_left 1 x)

theorem apply_action_nonneg (a : ℤ) (t : ℚ) (h : 0 ≤ t) :
    0 ≤ CanaryEnv.apply_action a t := by
  unfold CanaryEnv.apply_action
  split_ifs
  · exact le_min (by norm_num) (by linarith)
  · exact le_max_left 0 _
  · exact h

theorem apply_action_le_one (a : ℤ) (t : ℚ) (h : t ≤ 1) :
    CanaryEnv.apply_action a t ≤ 1 := by
  unfold CanaryEnv.apply_action
  split_ifs
  · exact min_le_left 1 _
  · exact max_le (by norm_num) (by linarith)
  · exact h

theorem pushWindow_length (W : ℕ) (buf : List (List ℚ)) (x : List ℚ)
    (h : buf.length = W) : (pushWindow W buf x).length = W := by
  simp only [pushWindow]
  have hc : W < (buf ++ [x]).length := by simp [h]
  rw [if_pos hc, List.length_drop]
  simp only [List.length_append, List.length_cons, List.length_nil, h]
  omega

theorem pushWindow_mem (W : ℕ) (buf : List (List ℚ)) (x o : List ℚ)
    (ho : o ∈ pushWindow W buf x) : o ∈ buf ∨ o = x := by
  simp only [pushWindow] at ho
  have hmem : o ∈ buf ++ [x] := by
    split at ho
    · exact List.drop_subset _ _ ho
    · exact ho
  simpa using hmem

theorem flatten_length_of_all8 (buf : List (List ℚ))
    (h : ∀ o ∈ buf, o.length = 8) :
    (context_window buf).length = buf.length * 8 := by
  unfold context_window
  induction buf with
  | nil => simp
  | cons hd tl ih =>
    have hhd : hd.length = 8 := h hd (by simp)
    have htl : (tl.flatten).length = tl.length * 8 :=
      ih (fun o ho => h o (by simp [ho]))
    simp only [List.flatten_cons, List.length_append, List.length_cons, hhd, htl]
    ring

/-! ### Claim theorems -/

/-- C6: for every step, the cascade factor after the update equals the
clamp to [0,1] of `0.3·pressure + 0.7·previousCascadeFactor` with
`pressure = trafficFraction × localErrorRate × (serviceCount − 1)`, and
consequently the updated cascade factor lies in [0,1] for all inputs. -/
theorem C6_cascade_update (ns : ℕ) (traffic cascade err : ℚ) :
    CanaryEnv.update_cascade ns traffic cascade err =
      clip (3/10 * (traffic * err * ((ns : ℚ) - 1)) + 7/10 * cascade) 0 1 ∧
    0 ≤ CanaryEnv.update_cascade ns traffic cascade err ∧
    CanaryEnv.update_cascade ns traffic cascade err ≤ 1 := by
  have heq : CanaryEnv.update_cascade ns traffic cascade err =
      clip (3/10 * (traffic * err * ((ns : ℚ) - 1)) + 7/10 * cascade) 0 1 := by
    simp only [CanaryEnv.update_cascade]
    norm_num
  refine ⟨heq, ?_, ?_⟩
  · rw [heq]
    exact clip_unit_nonneg _
  · rw [heq]
    exact clip_unit_le_one _

/-- C7: for every sequence of actions the traffic fraction stays within
[0,1] at every step; action 1 (INCREASE) adds 0.1 clamped above at 1,
action 2 (DECREASE) subtracts 0.1 clamped below at 0, any other action
(HOLD) leaves it unchanged, and the simulation environment and the online
controller use the identical traffic update. -/
theorem C7_traffic_clamped (t : ℚ) (actions : List ℤ) (h0 : 0 ≤ t) (h1 : t ≤ 1) :
    (0 ≤ CanaryEnv.run_traffic t actions ∧ CanaryEnv.run_traffic t actions ≤ 1) ∧
    (∀ a u, CanaryEnv.apply_action a u = Controller.apply_action_traffic a u) ∧
    CanaryEnv.apply_action 1 t = min 1 (t + 1/10) ∧
    CanaryEnv.apply_action 2 t = max 0 (t - 1/10) ∧
    (∀ a : ℤ, a ≠ 1 → a ≠ 2 → CanaryEnv.apply_action a t = t) := by
  refine ⟨?_, fun a u => rfl, by simp [CanaryEnv.apply_action],
    by simp [CanaryEnv.apply_action], fun a ha1 ha2 => by
      simp [CanaryEnv.apply_action, ha1, ha2]⟩
  induction actions generalizing t with
  | nil => exact ⟨h0, h1⟩
  | cons a rest ih =>
    simp only [CanaryEnv.run_traffic, List.foldl_cons] at ih ⊢
    exact ih (CanaryEnv.apply_action a t)
      (apply_action_nonneg a t h0) (apply_action_le_one a t h1)

/-- Witness for C7 at `t = 1/2` and a concrete action sequence. -/
theorem C7_traffic_clamped_witness :
    (0 ≤ CanaryEnv.run_traffic (1/2) [1, 1, 2, 0, 1, 1, 1, 1, 1, 1] ∧
      CanaryEnv.run_traffic (1/2) [1, 1, 2, 0, 1, 1, 1, 1, 1, 1] ≤ 1) ∧
    (∀ a u, CanaryEnv.apply_action a u = Controller.apply_action_traffic a u) ∧
    CanaryEnv.apply_action 1 (1/2) = min 1 (1/2 + 1/10) ∧
    CanaryEnv.apply_action 2 (1/2) = max 0 (1/2 - 1/10) ∧
    (∀ a : ℤ, a ≠ 1 → a ≠ 2 → CanaryEnv.apply_action a (1/2) = 1/2) :=
  C7_traffic_clamped (1/2) [1, 1, 2, 0, 1, 1, 1, 1, 1, 1]
    (by norm_num) (by norm_num)

/-- C8: every component of every normalised observation vector produced by
the observation builder — in the simulation environment and in the online
controller — lies in [0,1], for arbitrary raw inputs (each component is
clamped after scaling). -/
theorem C8_normalized_bounds (e l cpu mem te e2 r tr : ℚ) (i : ℕ) :
    (0 ≤ (CanaryEnv.build_single_obs e l cpu mem te e2 r tr).getD i 0 ∧
      (CanaryEnv.build_single_obs e l cpu mem te e2 r tr).getD i 0 ≤ 1) ∧
    (0 ≤ (Controller.build_single_obs e l cpu mem te e2 r tr).getD i 0 ∧
      (Controller.build_single_obs e l cpu mem te e2 r tr).getD i 0 ≤ 1) := by
  have hclip : ∀ x : ℚ, 0 ≤ clip x 0 1 ∧ clip x 0 1 ≤ 1 :=
    fun x => ⟨clip_unit_nonneg x, clip_unit_le_one x⟩
  constructor <;>
    [simp only [CanaryEnv.build_single_obs];
      simp only [Controller.build_single_obs]] <;>
    rcases i with _ | _ | _ | _ | _ | _ | _ | _ | i <;>
    simp only [List.getD_cons_zero, List.getD_cons_succ, List.getD_nil] <;>
    first
    | exact hclip _
    | exact ⟨le_refl 0, by norm_num⟩

/-- C10: the services' metrics computation is total at zero load — with a
recorded request count of 0 the error rate and the average latency are
returned as 0 rather than dividing by zero, the p95 is 0.0 when no
latencies are recorded, and the stable twin behaves the same way. -/
theorem C10_zero_load_metrics (c : ServiceCounters) (h : c.request_count = 0) :
    (CanaryApp.compute_metrics c).error_rate = 0 ∧
    (CanaryApp.compute_metrics c).avg_latency_ms = 0 ∧
    (c.latency_values = [] → (CanaryApp.compute_metrics c).latency_p95_ms = 0) ∧
    (StableApp.compute_metrics c).error_rate = 0 ∧
    (StableApp.compute_metrics c).avg_latency_ms = 0 := by
  have hzero : pyRound 6 0 = 0 := by norm_num [pyRound]
  have hzero2 : pyRound 2 0 = 0 := by norm_num [pyRound]
  refine ⟨?_, ?_, fun hlat => ?_, ?_, ?_⟩
  · simp [CanaryApp.compute_metrics, h, hzero]
  · simp [CanaryApp.compute_metrics, h, hzero2]
  · simp [CanaryApp.compute_metrics, h, hlat, hzero2]
  · simp [StableApp.compute_metrics, h, hzero]
  · simp [StableApp.compute_metrics, h, hzero2]

/-- C5: the rule-based policy is a deterministic function of the flattened
window returning the first matching rule in the spec's fixed priority
order — local error critical → DECREASE, cluster error critical →
DECREASE, rising OLS error trend on either channel → HOLD, local or
end-to-end latency above its normalised SLO → HOLD, CPU or memory above a
saturation threshold → HOLD, both error channels below the safe
threshold → INCREASE, otherwise HOLD. -/
theorem C5_rule_priority (config : RuleBased.RuleConfig) (obs : List ℚ) :
    RuleBased.rule_based_policy config obs =
      RuleBased.rule_based_policy_spec config obs := by
  have hsplit : ∀ (p q : Prop) (hp : Decidable p) (hq : Decidable q) (x y : ℤ),
      (if p ∨ q then x else y) = if p then x else if q then x else y := by
    intro p q hp hq x y
    split_ifs <;> tauto
  simp only [RuleBased.rule_based_policy, RuleBased.rule_based_policy_spec,
    RuleBased.first_match, decide_eq_true_eq, hsplit]

/-- C1 counterexample: the claim says the observation window is pre-filled
with zero-vectors, the first 7 (even 9) 8-element entries of the step-1
observation being zero-valued.  In the code the padding vectors are the
*baseline default* observation, whose normalised-latency entry is
`100/500 = 1/5`: entry index 1 of the flattened window-size-10 observation
the policy receives at step 1 is 1/5 ≠ 0. -/
theorem C1_counterexample :
    (context_window envReset10.obs_buffer).getD 1 0 = 1/5 ∧
    ((1 : ℚ)/5) ≠ 0 := by
  have hv : envReset10.obs_buffer =
      List.replicate 10
        (CanaryEnv.build_single_obs 0 100 (5/100) (10/100) (1/200) 250 (1/2) 0) := rfl
  constructor
  · rw [hv, show (10 : ℕ) = 9 + 1 from rfl, List.replicate_succ, context_window,
      List.flatten_cons, List.getD_append]
    · norm_num [CanaryEnv.build_single_obs, clip, List.getD_cons_succ,
        List.getD_cons_zero]
    · norm_num [CanaryEnv.build_single_obs]
  · norm_num

/-- C1 (amended): at rollout start the window is pre-filled with
`window_size` copies of the baseline default vector (error 0, normalised
base latency, cpu 0.05, memory 0.10, the sampled cluster baselines,
traffic 0) — not with zero vectors — and the flattened observation has
length exactly `window_size × 8` from the first step onward: `reset`
establishes the shape invariant and `step` preserves it. -/
theorem C1_window_shape (s t : CanaryEnv.EnvState) (sc : CanaryEnv.Scenario)
    (bce bcl brr : ℚ) (a : ℤ) (m : MetricSnapshot)
    (ht : CanaryEnv.obs_invariant t) :
    (CanaryEnv.reset s sc bce bcl brr).obs_buffer =
      List.replicate s.window_size
        (CanaryEnv.build_single_obs 0 s.base_latency (5/100) (10/100) bce bcl brr 0) ∧
    (context_window (CanaryEnv.reset s sc bce bcl brr).obs_buffer).length =
      s.window_size * 8 ∧
    CanaryEnv.obs_invariant (CanaryEnv.step t a m).state ∧
    (context_window (CanaryEnv.step t a m).state.obs_buffer).length =
      t.window_size * 8 := by
  have hreset : (CanaryEnv.reset s sc bce bcl brr).obs_buffer =
      List.replicate s.window_size
        (CanaryEnv.build_single_obs 0 s.base_latency (5/100) (10/100) bce bcl brr 0) :=
    rfl
  have hstep_buf : (CanaryEnv.step t a m).state.obs_buffer =
      pushWindow t.window_size t.obs_buffer
        (CanaryEnv.build_single_obs m.error_rate_v2 m.latency_p95_v2 m.cpu_usage_v2
          m.memory_usage_v2 m.total_error_rate m.end_to_end_latency m.request_rate
          (CanaryEnv.apply_action a t.traffic_v2)) := rfl
  have hinv : CanaryEnv.obs_invariant (CanaryEnv.step t a m).state := by
    constructor
    · show (CanaryEnv.step t a m).state.obs_buffer.length =
        (CanaryEnv.step t a m).state.window_size
      rw [hstep_buf]
      exact pushWindow_length _ _ _ ht.1
    · intro o ho
      rw [hstep_buf] at ho
      rcases pushWindow_mem _ _ _ _ ho with h | h
      · exact ht.2 o h
      · rw [h]
        rfl
  refine ⟨hreset, ?_, hinv, ?_⟩
  · rw [hreset, flatten_length_of_all8]
    · simp
    · intro o ho
      rw [List.eq_of_mem_replicate ho]
      rfl
  · rw [flatten_length_of_all8 _ hinv.2, hinv.1]
    rfl

/-- Witness for C1 (amended) at window size 10 after an UP step. -/
theorem C1_window_shape_witness :
    (CanaryEnv.reset (CanaryEnv.init 10) CanaryEnv.Scenario.healthy (1/200) 250
        (1/2)).obs_buffer =
      List.replicate (CanaryEnv.init 10).window_size
        (CanaryEnv.build_single_obs 0 (CanaryEnv.init 10).base_latency (5/100) (10/100)
          (1/200) 250 (1/2) 0) ∧
    (context_window (CanaryEnv.reset (CanaryEnv.init 10) CanaryEnv.Scenario.healthy
        (1/200) 250 (1/2)).obs_buffer).length = (CanaryEnv.init 10).window_size * 8 ∧
    CanaryEnv.obs_invariant (CanaryEnv.step envReset10 1 probeSnap).state ∧
    (context_window (CanaryEnv.step envReset10 1 probeSnap).state.obs_buffer).length =
      envReset10.window_size * 8 :=
  C1_window_shape (CanaryEnv.init 10) envReset10 CanaryEnv.Scenario.healthy
    (1/200) 250 (1/2) 1 probeSnap (by decide)

/-- C2 counterexample: at full traffic with local error 1%, p95 150ms and
cluster error 2.5%, both the simulation twin and the online controller
terminate the rollout as a success, although 2.5% is not below the 2%
threshold the claim names for the cluster-wide error rate. -/
theorem C2_counterexample :
    (Controller.run_step (fun _ => 0) nearSuccessSnap ctrlFull).map Prod.snd =
      some Outcome.succeeded ∧
    (CanaryEnv.step envFull 0 nearSuccessSnap).terminated = true ∧
    ¬ (nearSuccessSnap.total_error_rate < 2/100) := by
  refine ⟨?_, ?_, by norm_num [nearSuccessSnap]⟩
  · norm_num [Controller.run_step, Controller.observe, Controller.step_with_action,
      Controller.apply_action, Controller.apply_action_traffic,
      Controller.update_ingress, Controller.critical_local,
      Controller.critical_cluster, Controller.success_check, ctrlFull, ctrlStart10,
      Controller.start, Controller.init, nearSuccessSnap]
  · norm_num [CanaryEnv.step, CanaryEnv.critical_local, CanaryEnv.critical_cluster,
      CanaryEnv.success_check, CanaryEnv.apply_action, envFull, envReset10,
      CanaryEnv.reset, CanaryEnv.init, nearSuccessSnap]

/-- C2 (amended): the rollout terminates as SUCCEEDED exactly when the
traffic fraction has reached 1 and the local error rate is below 2% and
the local p95 latency is below the SLO and the cluster-wide error rate is
below 3% (not 2%), in the simulation environment and in the online
controller alike. -/
theorem C2_success_characterisation (s : CanaryEnv.EnvState)
    (c : Controller.CtrlState) (a : ℤ) (m : MetricSnapshot) :
    ((CanaryEnv.step s a m).terminated = true ↔
      (CanaryEnv.critical_local m ∨ CanaryEnv.critical_cluster m ∨
        CanaryEnv.success_check m (CanaryEnv.apply_action a s.traffic_v2)
          s.slo_latency)) ∧
    (CanaryEnv.success_check m (CanaryEnv.apply_action a s.traffic_v2) s.slo_latency ↔
      (CanaryEnv.apply_action a s.traffic_v2 ≥ 1 ∧ m.error_rate_v2 < 2/100 ∧
        m.latency_p95_v2 < s.slo_latency ∧ m.total_error_rate < 3/100)) ∧
    ((Controller.step_with_action m a c).map Prod.snd = some Outcome.succeeded ↔
      (¬(2 < a ∨ a < -3) ∧ ¬Controller.critical_local m ∧
        ¬Controller.critical_cluster m ∧
        Controller.apply_action_traffic a c.traffic_v2 ≥ 1 ∧
        m.error_rate_v2 < 2/100 ∧ m.latency_p95_v2 < c.slo_latency ∧
        m.total_error_rate < 3/100)) := by
  refine ⟨?_, Iff.rfl, ?_⟩
  · simp [CanaryEnv.step, Bool.or_eq_true, decide_eq_true_eq, or_assoc]
  · by_cases hv : (2 < a ∨ a < -3)
    · simp [Controller.step_with_action, Controller.apply_action, hv]
    · by_cases h1 : Controller.critical_local m
      · simp [Controller.step_with_action, Controller.apply_action, hv, h1]
      · by_cases h2 : Controller.critical_cluster m
        · simp [Controller.step_with_action, Controller.apply_action, hv, h1, h2]
        · by_cases h3 : Controller.success_check m
            (Controller.apply_action_traffic a c.traffic_v2) c.slo_latency
          · obtain ⟨hb1, hb2, hb3, hb4⟩ := h3
            simp [Controller.step_with_action, Controller.apply_action,
              Controller.update_ingress, hv, h1, h2, hb1, hb2, hb3, hb4,
              Controller.success_check]
          · have h3' : ¬ (Controller.apply_action_traffic a c.traffic_v2 ≥ 1 ∧
                m.error_rate_v2 < 2/100 ∧ m.latency_p95_v2 < c.slo_latency ∧
                m.total_error_rate < 3/100) := h3
            simp only [Controller.step_with_action, Controller.apply_action,
              Controller.update_ingress, if_neg hv]
            simp [h1, h2, Controller.success_check, h3']

/-- C3: when the local error rate exceeds 4% or the cluster-wide error
rate exceeds 6%, the simulation twin terminates the episode and the online
controller ends the session ROLLED_BACK with the traffic fraction forced
to 0 and weight 0 pushed to the traffic sink; this rollback takes priority
over the success transition, so such a step never ends SUCCEEDED. -/
theorem C3_rollback_priority (s : CanaryEnv.EnvState) (c : Controller.CtrlState)
    (a : ℤ) (m : MetricSnapshot)
    (hcrit : m.error_rate_v2 > 4/100 ∨ m.total_error_rate > 6/100)
    (ha1 : -3 ≤ a) (ha2 : a ≤ 2) :
    (CanaryEnv.step s a m).terminated = true ∧
    (∃ c1, Controller.step_with_action m a c = some (c1, Outcome.rolledBack) ∧
      c1.traffic_v2 = 0 ∧ c1.sink_weight = 0) ∧
    (∀ c2 o, Controller.step_with_action m a c = some (c2, o) →
      o ≠ Outcome.succeeded) := by
  have hv : ¬ (2 < a ∨ a < -3) := by omega
  have key : Controller.step_with_action m a c =
      some (Controller.update_ingress
        { Controller.update_ingress
            { c with traffic_v2 := Controller.apply_action_traffic a c.traffic_v2 }
          with traffic_v2 := 0 }, Outcome.rolledBack) := by
    by_cases h1 : Controller.critical_local m
    · simp [Controller.step_with_action, Controller.apply_action, hv, h1]
    · have h2 : Controller.critical_cluster m := by
        rcases hcrit with h | h
        · exact absurd h h1
        · exact h
      simp [Controller.step_with_action, Controller.apply_action, hv, h1, h2]
  refine ⟨?_, ⟨_, key, rfl, ?_⟩, ?_⟩
  · rcases hcrit with h | h <;>
      simp [CanaryEnv.step, CanaryEnv.critical_local, CanaryEnv.critical_cluster, h]
  · show Controller.ingress_weight 0 = 0
    norm_num [Controller.ingress_weight]
  · intro c2 o heq
    rw [key] at heq
    simp only [Option.some.injEq, Prod.mk.injEq] at heq
    rw [← heq.2]
    decide

/-- Witness for C3 at a snapshot with 10% local error, a HOLD action and
full traffic. -/
theorem C3_rollback_priority_witness :
    (CanaryEnv.step envFull 0 highErrSnap).terminated = true ∧
    (∃ c1, Controller.step_with_action highErrSnap 0 ctrlFull =
      some (c1, Outcome.rolledBack) ∧ c1.traffic_v2 = 0 ∧ c1.sink_weight = 0) ∧
    (∀ c2 o, Controller.step_with_action highErrSnap 0 ctrlFull = some (c2, o) →
      o ≠ Outcome.succeeded) :=
  C3_rollback_priority envFull ctrlFull 0 highErrSnap (Or.inl (by norm_num [highErrSnap]))
    (by decide) (by decide)

/-- C4 counterexample: the two per-step loops are not identical.  The
simulation applies the action *before* the snapshot is produced, so the
policy acts on the previous observation; the controller polls and builds
the observation *before* invoking the policy.  With the same probe policy,
the same starting state and the same single snapshot (local error 3.5%),
the simulation twin raises the traffic fraction to 0.1 while the online
controller leaves it at 0. -/
theorem C4_counterexample :
    (CanaryEnv.loop_step probe_policy envReset1 probeSnap).state.traffic_v2 = 1/10 ∧
    (Controller.run_step probe_policy probeSnap ctrlStart1).map
      (fun r => r.1.traffic_v2) = some 0 ∧
    ((1 : ℚ)/10) ≠ 0 := by
  refine ⟨?_, ?_, by norm_num⟩
  · norm_num [CanaryEnv.loop_step, CanaryEnv.step, CanaryEnv.apply_action,
      probe_policy, context_window, envReset1, CanaryEnv.reset, CanaryEnv.init,
      CanaryEnv.default_obs, CanaryEnv.build_single_obs, clip, probeSnap,
      List.getD_cons_zero]
  · norm_num [Controller.run_step, Controller.observe, Controller.step_with_action,
      Controller.apply_action, Controller.apply_action_traffic,
      Controller.update_ingress, Controller.critical_local,
      Controller.critical_cluster, Controller.success_check, probe_policy,
      context_window, pushWindow, ctrlStart1, Controller.start, Controller.init,
      Controller.default_obs, Controller.build_single_obs, clip, probeSnap,
      List.getD_cons_zero]

/-- C4 (amended): the two modes share the same per-step *semantics* — the
identical clamped action application, identical critical thresholds,
identical success condition and identical observation normalisation — but
not the same per-step order: the simulation applies the action before
producing the snapshot, the controller polls the snapshot and invokes the
policy before applying the action, so the same policy and the same metric
values may produce different traffic-fraction sequences. -/
theorem C4_shared_step_semantics :
    (∀ (a : ℤ) (t : ℚ),
      CanaryEnv.apply_action a t = Controller.apply_action_traffic a t) ∧
    (∀ m : MetricSnapshot,
      CanaryEnv.critical_local m ↔ Controller.critical_local m) ∧
    (∀ m : MetricSnapshot,
      CanaryEnv.critical_cluster m ↔ Controller.critical_cluster m) ∧
    (∀ (m : MetricSnapshot) (t slo : ℚ),
      CanaryEnv.success_check m t slo ↔ Controller.success_check m t slo) ∧
    (∀ e l cpu mem te e2 r tr : ℚ,
      CanaryEnv.build_single_obs e l cpu mem te e2 r tr =
        Controller.build_single_obs e l cpu mem te e2 r tr) :=
  ⟨fun _ _ => rfl, fun _ => Iff.rfl, fun _ => Iff.rfl, fun _ _ _ => Iff.rfl,
    fun _ _ _ _ _ _ _ _ => rfl⟩

/-- C9 counterexample: an action outside the valid range is not treated as
HOLD by the online controller — `apply_action 3` indexes the 3-element
action-name list during logging, raises `IndexError`, and the uncaught
exception aborts the rollout (modelled as `none`) instead of holding. -/
theorem C9_action3_crashes :
    Controller.apply_action 3 ctrlStart10 = none := by
  decide

/-- C9 (amended): an action outside `{1, 2}` leaves the traffic fraction
unchanged (HOLD behaviour) in the simulation environment for every action,
and in the online controller only for actions inside the list-index range
[-3, 2]; for an action above 2 or below -3 the controller's logging lookup
raises and the rollout aborts rather than holding. -/
theorem C9_invalid_action_hold (a : ℤ) (t : ℚ) (c : Controller.CtrlState)
    (h1 : a ≠ 1) (h2 : a ≠ 2) :
    CanaryEnv.apply_action a t = t ∧
    (-3 ≤ a → a ≤ 2 →
      (Controller.apply_action a c).map Controller.CtrlState.traffic_v2 =
        some c.traffic_v2) ∧
    (2 < a ∨ a < -3 → Controller.apply_action a c = none) := by
  refine ⟨by simp [CanaryEnv.apply_action, h1, h2], ?_, ?_⟩
  · intro hb1 hb2
    have hv : ¬ (2 < a ∨ a < -3) := by omega
    simp [Controller.apply_action, Controller.update_ingress,
      Controller.apply_action_traffic, hv, h1, h2]
  · intro hv
    simp [Controller.apply_action, hv]

/-- Witness for C9 (amended) at the invalid action -1. -/
theorem C9_invalid_action_hold_witness :
    CanaryEnv.apply_action (-1) (1/2) = 1/2 ∧
    ((-3 : ℤ) ≤ -1 → (-1 : ℤ) ≤ 2 →
      (Controller.apply_action (-1) ctrlStart10).map Controller.CtrlState.traffic_v2 =
        some ctrlStart10.traffic_v2) ∧
    ((2 : ℤ) < -1 ∨ (-1 : ℤ) < -3 →
      Controller.apply_action (-1) ctrlStart10 = none) :=
  C9_invalid_action_hold (-1) (1/2) ctrlStart10 (by decide) (by decide)

/-- Witness for C10 at the freshly reset counters. -/
theorem C10_zero_load_metrics_witness :
    (CanaryApp.compute_metrics ⟨0, 0, 0, []⟩).error_rate = 0 ∧
    (CanaryApp.compute_metrics ⟨0, 0, 0, []⟩).avg_latency_ms = 0 ∧
    ((⟨0, 0, 0, []⟩ : ServiceCounters).latency_values = [] →
      (CanaryApp.compute_metrics ⟨0, 0, 0, []⟩).latency_p95_ms = 0) ∧
    (StableApp.compute_metrics ⟨0, 0, 0, []⟩).error_rate = 0 ∧
    (StableApp.compute_metrics ⟨0, 0, 0, []⟩).avg_latency_ms = 0 :=
  C10_zero_load_metrics ⟨0, 0, 0, []⟩ rfl

end Canary
